import Mathlib

/- Verification development for the capnp-calc calculator server
   (src/server.rs).  The evaluator, the value and function capabilities and
   the calculator service are shallowly embedded: machine doubles (f64)
   become an abstract carrier type `α` together with the four arithmetic
   operations actually applied by the source (`F64Ops`), RPC promises
   become `Except` results, and the concurrent `try_join_all` over the
   argument futures becomes a sequential left-to-right join that keeps the
   original argument order (the only order observable in the result
   vector).  Capnp `Error::failed(msg)` values are represented by the
   inductive `CalcError`, one constructor per distinct message produced by
   the source; `CalcError.message` renders the exact Rust format strings. -/

namespace CapnpCalc

/-- Abstract interface to IEEE-754 double arithmetic: the four binary
operations that `OperatorImpl::call` applies with Rust's `+`, `-`, `*`,
`/` on `f64`.  All structural theorems hold for every carrier; concrete
examples instantiate it with `Rat`, on which the arithmetic of the
examples coincides with exact IEEE double arithmetic. -/
structure F64Ops (α : Type) where
  add : α → α → α
  sub : α → α → α
  mul : α → α → α
  div : α → α → α

/-- The `calculator::Operator` enum of the schema: Add, Subtract,
Multiply, Divide. -/
inductive Operator where
  | add
  | subtract
  | multiply
  | divide
deriving DecidableEq, Repr

/-- `ValueImpl`: the value capability, wrapping a single immutable f64
(`struct ValueImpl { value: f64 }`). -/
structure ValueImpl (α : Type) where
  value : α
deriving DecidableEq, Repr

/-- `ValueImpl::read`: `results.get().set_value(self.value)` — it returns
the stored value and touches nothing else (the handler takes `&mut self`
but never writes it, so the capability state after a read is the state
before it). -/
def ValueImpl.read (self : ValueImpl α) : α :=
  self.value

/-- The failure values produced by the server, one constructor per
distinct `Error::failed` message in src/server.rs; `substrate` stands for
an opaque failure coming back from an external (client-supplied) callback
capability. -/
inductive CalcError where
  | badParameter (p : Nat)
  | expectedParameters (expected got : Nat)
  | wrongNumberOfParameters
  | substrate (msg : String)
deriving DecidableEq, Repr

/-- The exact strings the source formats into `Error::failed`. -/
def CalcError.message : CalcError → String
  | .badParameter p => "bad parameter: " ++ toString p
  | .expectedParameters expected got =>
      "Expected " ++ toString expected ++ " parameters but got " ++ toString got ++ "."
  | .wrongNumberOfParameters => "Wrong number of parameters."
  | .substrate msg => msg

mutual
/-- The `calculator::expression` wire union: `Literal(f64)`,
`PreviousResult(value capability)`, `Parameter(u32)`,
`Call(function, params)`.  Parameter indices (u32 on the wire) are
modelled as `Nat`; a `previousResult` holds the server-side `ValueImpl`
the capability reference resolves to. -/
inductive Expr (α : Type) where
  | literal (value : α)
  | previousResult (cap : ValueImpl α)
  | parameter (index : Nat)
  | call (function : Func α) (params : List (Expr α))

/-- A `calculator::function` capability as the server can encounter it:
`OperatorImpl { op }`, `FunctionImpl { param_count, body }` (the body is
the deep copy stored at definition time), or an opaque external callback
supplied by the client, whose behaviour is an arbitrary function from the
parameter list to a result. -/
inductive Func (α : Type) where
  | operator (op : Operator)
  | userDefined (paramCount : Nat) (body : Expr α)
  | callback (impl : List α → Except CalcError α)
end

/-- The operator dispatch of `OperatorImpl::call`:
`Add => p0 + p1, Subtract => p0 - p1, Multiply => p0 * p1,
Divide => p0 / p1`. -/
def applyOperator (ops : F64Ops α) : Operator → α → α → α
  | .add, a, b => ops.add a b
  | .subtract, a, b => ops.sub a b
  | .multiply, a, b => ops.mul a b
  | .divide, a, b => ops.div a b

mutual
/-- `evaluate_impl(expression, params)` from src/server.rs:44.
`Literal(v)` is immediately ready with `v`; `PreviousResult(p)` reads the
referenced value capability; `Parameter(p)` yields `params[p]` when a
parameter list is present and `p` is in range and otherwise fails with
`bad parameter: p`; `Call(call)` joins the evaluation of every argument
expression under the same `params` (in argument order, first failure
aborting the join) and then issues `call` on the function capability with
the joined result vector. -/
def evaluate (ops : F64Ops α) : Expr α → Option (List α) → Except CalcError α
  | .literal v, _ => .ok v
  | .previousResult cap, _ => .ok cap.read
  | .parameter p, params =>
      match params with
      | some ps =>
          if h : p < ps.length then .ok (ps.get ⟨p, h⟩)
          else .error (.badParameter p)
      | none => .error (.badParameter p)
  | .call f args, params => do
      let paramValues ← evalArgs ops args params
      Func.call ops f paramValues

/-- The `future::try_join_all(call.get_params().iter().map(|p|
evaluate_impl(p, params)))` step of the `Call` arm, as the deterministic
sequential join: each argument is evaluated under the unchanged `params`,
the result vector keeps the argument order, and the first failure is the
failure of the whole join. -/
def evalArgs (ops : F64Ops α) : List (Expr α) → Option (List α) → Except CalcError (List α)
  | [], _ => .ok []
  | e :: rest, params => do
      let v ← evaluate ops e params
      let vs ← evalArgs ops rest params
      pure (v :: vs)

/-- Dispatch of `request.send()` on a function capability to the `call`
handler of its server implementation.  `OperatorImpl::call`
(src/server.rs:113) fails with `Wrong number of parameters.` unless
exactly 2 parameters arrive, and otherwise applies the operator;
`FunctionImpl::call` (src/server.rs:82) fails with
`Expected {param_count} parameters but got {len}.` on an arity mismatch
and otherwise evaluates its stored body with the supplied parameter list
bound as the context; a callback behaves as its opaque implementation. -/
def Func.call (ops : F64Ops α) : Func α → List α → Except CalcError α
  | .operator op, ps =>
      if h : ps.length ≠ 2 then
        .error .wrongNumberOfParameters
      else
        .ok (applyOperator ops op (ps.get ⟨0, by omega⟩) (ps.get ⟨1, by omega⟩))
  | .userDefined paramCount body, ps =>
      if ps.length ≠ paramCount then
        .error (.expectedParameters paramCount ps.length)
      else
        evaluate ops body (some ps)
  | .callback impl, ps => impl ps
end

/-- `CalculatorImpl::evaluate` (src/server.rs:137): run the evaluator on
the expression with no parameter list; on success wrap the number in a
fresh `ValueImpl` capability, on failure fail the request itself (no
capability is produced). -/
def CalculatorImpl.evaluate (ops : F64Ops α) (expression : Expr α) :
    Except CalcError (ValueImpl α) :=
  (CapnpCalc.evaluate ops expression none).map ValueImpl.mk

/-- `CalculatorImpl::def_function` (src/server.rs:150): build a
`FunctionImpl` from the requested parameter count and a private deep copy
of the body (`FunctionImpl::new` stores `set_root(body)` into an owned
message), with no validation of the body. -/
def CalculatorImpl.defFunction (paramCount : Nat) (body : Expr α) : Func α :=
  .userDefined paramCount body

/-- `CalculatorImpl::get_operator` (src/server.rs:163): wrap the
requested operator in an `OperatorImpl` capability. -/
def CalculatorImpl.getOperator (op : Operator) : Func α :=
  .operator op

/-- Exact arithmetic instance used for concrete examples; on the integral
inputs of the examples it agrees with IEEE double arithmetic. -/
def ratOps : F64Ops Rat where
  add := (· + ·)
  sub := (· - ·)
  mul := (· * ·)
  div := (· / ·)

/-- Body of the demo function `f(x, y) = x * 100 + y` exactly as the
client builds it (Call(Add, [Call(Multiply, [Parameter 0, Literal 100]),
Parameter 1])). -/
def fBody : Expr Rat :=
  .call (.operator .add)
    [.call (.operator .multiply) [.parameter 0, .literal 100], .parameter 1]

/-- The capability `defFunction(2, fBody)` returns. -/
def fFunc : Func Rat :=
  .userDefined 2 fBody

/-- Body of the demo function `g(x) = f(x, x + 1) * 2` exactly as the
client builds it. -/
def gBody : Expr Rat :=
  .call (.operator .multiply)
    [.call fFunc [.parameter 0, .call (.operator .add) [.parameter 0, .literal 1]],
     .literal 2]

/-- The capability `defFunction(1, gBody)` returns. -/
def gFunc : Func Rat :=
  .userDefined 1 gBody

/- Helper lemmas about the `Except` monad and the argument join. -/

@[simp] theorem ok_bind {E A B : Type} (a : A) (f : A → Except E B) :
    (Except.ok a >>= f) = f a := rfl

@[simp] theorem error_bind {E A B : Type} (e : E) (f : A → Except E B) :
    ((Except.error e : Except E A) >>= f) = Except.error e := rfl

@[simp] theorem pure_eq_ok {E A : Type} (a : A) :
    (pure a : Except E A) = Except.ok a := rfl

@[simp] theorem map_error_eq {E A B : Type} (e : E) (f : A → B) :
    Except.map f (Except.error e : Except E A) = Except.error e := rfl

theorem bind_eq_ok {E A B : Type} {x : Except E A} {f : A → Except E B} {b : B}
    (h : (x >>= f) = .ok b) : ∃ a, x = .ok a ∧ f a = .ok b := by
  cases x with
  | error e => simp at h
  | ok a => exact ⟨a, rfl, by simpa using h⟩

/-- A successful argument join produces exactly one value per argument
expression. -/
theorem evalArgs_ok_length {α : Type} {ops : F64Ops α} {args : List (Expr α)}
    {params : Option (List α)} {vs : List α}
    (h : evalArgs ops args params = .ok vs) : vs.length = args.length := by
  induction args generalizing vs with
  | nil =>
    simp only [evalArgs, Except.ok.injEq] at h
    subst h
    rfl
  | cons e rest ih =>
    simp only [evalArgs] at h
    obtain ⟨v, hv, h2⟩ := bind_eq_ok h
    obtain ⟨vs2, hvs2, h3⟩ := bind_eq_ok h2
    simp only [pure_eq_ok, Except.ok.injEq] at h3
    subst h3
    simp [ih hvs2]

/-- Entry `k` of a successful argument join is the result of evaluating
argument expression `k` under the same parameter context. -/
theorem evalArgs_ok_get {α : Type} {ops : F64Ops α} {args : List (Expr α)}
    {params : Option (List α)} {vs : List α}
    (h : evalArgs ops args params = .ok vs) :
    ∀ (k : Nat) (hk : k < args.length) (hk2 : k < vs.length),
      evaluate ops (args.get ⟨k, hk⟩) params = .ok (vs.get ⟨k, hk2⟩) := by
  induction args generalizing vs with
  | nil => intro k hk _; exact absurd hk (by simp)
  | cons e rest ih =>
    simp only [evalArgs] at h
    obtain ⟨v, hv, h2⟩ := bind_eq_ok h
    obtain ⟨vs2, hvs2, h3⟩ := bind_eq_ok h2
    simp only [pure_eq_ok, Except.ok.injEq] at h3
    subst h3
    intro k hk hk2
    cases k with
    | zero => simpa using hv
    | succ k => exact ih hvs2 k (by simpa using hk) (by simpa using hk2)

/-- The argument join is exactly a monadic map of the evaluator over the
argument list, with the parameter context held fixed. -/
theorem evalArgs_eq_mapM {α : Type} (ops : F64Ops α) (args : List (Expr α))
    (params : Option (List α)) :
    evalArgs ops args params = args.mapM (fun a => evaluate ops a params) := by
  induction args with
  | nil => rw [List.mapM_nil]; rfl
  | cons e rest ih => rw [List.mapM_cons, ← ih]; rfl

/-- C1: for every Call(f, arg_exprs) expression evaluated under any
parameter context, the function is invoked exactly on the joined result
vector, which exists only when every argument sub-evaluation succeeded,
has one entry per argument expression, and its entry k is the result of
evaluating arg_exprs[k] (original argument order). -/
theorem c1_call_invoked_after_all_args {α : Type} (ops : F64Ops α)
    (f : Func α) (args : List (Expr α)) (params : Option (List α)) (vs : List α)
    (h : evalArgs ops args params = .ok vs) :
    evaluate ops (.call f args) params = Func.call ops f vs ∧
    vs.length = args.length ∧
    ∀ (k : Nat) (hk : k < args.length) (hk2 : k < vs.length),
      evaluate ops (args.get ⟨k, hk⟩) params = .ok (vs.get ⟨k, hk2⟩) := by
  refine ⟨?_, evalArgs_ok_length h, evalArgs_ok_get h⟩
  simp [evaluate, h]

/-- Witness for C1 at the demo input Call(Multiply, [4, 6]). -/
theorem c1_witness :
    evalArgs ratOps [Expr.literal 4, Expr.literal 6] none = .ok [4, 6] ∧
    evaluate ratOps (.call (.operator .multiply) [.literal 4, .literal 6]) none =
      Func.call ratOps (.operator .multiply) [4, 6] := by
  have h : evalArgs ratOps [Expr.literal 4, Expr.literal 6] none = .ok [4, 6] := by
    simp [evalArgs, evaluate]
  exact ⟨h, (c1_call_invoked_after_all_args ratOps _ _ _ _ h).1⟩

/-- C2: for all values a and b of the double carrier,
Operator(op).call([a, b]) succeeds and returns the double-arithmetic
result of the operator; in particular Divide never takes an error path
(the divide conjunct holds for every b, b = 0 included). -/
theorem c2_operator_call_applies_op {α : Type} (ops : F64Ops α) (a b : α) :
    Func.call ops (.operator .add) [a, b] = .ok (ops.add a b) ∧
    Func.call ops (.operator .subtract) [a, b] = .ok (ops.sub a b) ∧
    Func.call ops (.operator .multiply) [a, b] = .ok (ops.mul a b) ∧
    Func.call ops (.operator .divide) [a, b] = .ok (ops.div a b) :=
  ⟨rfl, rfl, rfl, rfl⟩

/-- C3: a UserDefined function with param_count n and body B, called on a
parameter list of length n, returns exactly the evaluation of B with that
list bound as the parameter context (so any failure of the nested
evaluation is the failure of the call); and on the demo functions
f(x, y) = x * 100 + y and g(x) = f(x, x + 1) * 2, f.call([12, 34]) = 1234
and g.call([21]) = 4244. -/
theorem c3_userdefined_delegates_and_composes :
    (∀ {α : Type} (ops : F64Ops α) (n : Nat) (body : Expr α) (ps : List α),
        ps.length = n →
        Func.call ops (.userDefined n body) ps = evaluate ops body (some ps)) ∧
    Func.call ratOps fFunc [12, 34] = .ok 1234 ∧
    Func.call ratOps gFunc [21] = .ok 4244 := by
  refine ⟨?_, ?_, ?_⟩
  · intro α ops n body ps h
    simp [Func.call, h]
  · simp [fFunc, fBody, Func.call, evaluate, evalArgs, applyOperator, ratOps]
    norm_num
  · simp [gFunc, gBody, fFunc, fBody, Func.call, evaluate, evalArgs, applyOperator, ratOps]
    norm_num

/-- Witness for C3 at f's body and the parameter list [12, 34]. -/
theorem c3_witness :
    ([12, 34] : List Rat).length = 2 ∧
    Func.call ratOps (.userDefined 2 fBody) [12, 34] =
      evaluate ratOps fBody (some [12, 34]) :=
  ⟨rfl, c3_userdefined_delegates_and_composes.1 ratOps 2 fBody [12, 34] rfl⟩

/-- C4: a failure anywhere in a Call's argument join, or of the invoked
function, is the failure of the whole Call, unchanged; and when the
top-level evaluation fails, Calculator.evaluate fails with that error and
produces no value capability. -/
theorem c4_first_failure_aborts {α : Type} (ops : F64Ops α) :
    (∀ (f : Func α) (args : List (Expr α)) (params : Option (List α)) (e : CalcError),
        evalArgs ops args params = .error e →
        evaluate ops (.call f args) params = .error e) ∧
    (∀ (f : Func α) (args : List (Expr α)) (params : Option (List α))
        (vs : List α) (e : CalcError),
        evalArgs ops args params = .ok vs →
        Func.call ops f vs = .error e →
        evaluate ops (.call f args) params = .error e) ∧
    (∀ (expression : Expr α) (e : CalcError),
        evaluate ops expression none = .error e →
        CalculatorImpl.evaluate ops expression = .error e) := by
  refine ⟨?_, ?_, ?_⟩
  · intro f args params e h
    simp [evaluate, h]
  · intro f args params vs e h1 h2
    simp [evaluate, h1, h2]
  · intro expression e h
    simp [CalculatorImpl.evaluate, h]

/-- Witness for C4: a bad parameter inside an argument aborts the Call,
and a failing top-level expression fails evaluate without a capability. -/
theorem c4_witness :
    evaluate ratOps (.call (.operator .add) [.parameter 0]) none =
      .error (.badParameter 0) ∧
    CalculatorImpl.evaluate ratOps (.parameter 0) = .error (.badParameter 0) :=
  ⟨(c4_first_failure_aborts ratOps).1 _ _ _ _ (by simp [evalArgs, evaluate]),
   (c4_first_failure_aborts ratOps).2.2 _ _ (by simp [evaluate])⟩

/-- C5: calling an Operator with a parameter count other than 2, or a
UserDefined function with a count other than its param_count, fails with
the respective arity-mismatch error for every such list — it never
truncates or pads the arguments into a successful call. -/
theorem c5_arity_mismatch_fails {α : Type} (ops : F64Ops α) :
    (∀ (op : Operator) (ps : List α), ps.length ≠ 2 →
        Func.call ops (.operator op) ps = .error .wrongNumberOfParameters) ∧
    (∀ (n : Nat) (body : Expr α) (ps : List α), ps.length ≠ n →
        Func.call ops (.userDefined n body) ps =
          .error (.expectedParameters n ps.length)) := by
  constructor
  · intro op ps h
    simp [Func.call, h]
  · intro n body ps h
    simp [Func.call, h]

/-- Witness for C5: one parameter for an operator, three for a binary
user-defined function. -/
theorem c5_witness :
    (([1] : List Rat).length ≠ 2 ∧
      Func.call ratOps (.operator .add) [1] = .error .wrongNumberOfParameters) ∧
    (([1, 2, 3] : List Rat).length ≠ 2 ∧
      Func.call ratOps (.userDefined 2 (.literal 0)) [1, 2, 3] =
        .error (.expectedParameters 2 ([1, 2, 3] : List Rat).length)) :=
  ⟨⟨by decide, (c5_arity_mismatch_fails ratOps).1 .add [1] (by decide)⟩,
   ⟨by decide, (c5_arity_mismatch_fails ratOps).2 2 (.literal 0) [1, 2, 3] (by decide)⟩⟩

/-- C6: Parameter(i) succeeds with params[i] exactly when a parameter
list is in scope and i is in range; with no list in scope or i out of
range it fails with the bad-parameter error; and since Calculator.evaluate
runs the evaluator with no parameter list, a Parameter expression fails
there. -/
theorem c6_parameter_lookup {α : Type} (ops : F64Ops α) :
    (∀ (i : Nat) (ps : List α) (h : i < ps.length),
        evaluate ops (.parameter i) (some ps) = .ok (ps.get ⟨i, h⟩)) ∧
    (∀ (i : Nat) (ps : List α), ¬ i < ps.length →
        evaluate ops (.parameter i) (some ps) = .error (.badParameter i)) ∧
    (∀ i : Nat, evaluate ops (.parameter i) none = .error (.badParameter i)) ∧
    (∀ i : Nat, CalculatorImpl.evaluate ops (.parameter i) =
        .error (.badParameter i)) := by
  refine ⟨?_, ?_, ?_, ?_⟩
  · intro i ps h
    simp [evaluate, h]
  · intro i ps h
    simp [evaluate, h]
  · intro i
    simp [evaluate]
  · intro i
    simp [CalculatorImpl.evaluate, evaluate]

/-- Witness for C6: an in-range lookup and an out-of-range lookup. -/
theorem c6_witness :
    ((0 : Nat) < ([5] : List Rat).length ∧
      evaluate ratOps (.parameter 0) (some [5]) = .ok 5) ∧
    (¬ (3 : Nat) < ([5] : List Rat).length ∧
      evaluate ratOps (.parameter 3) (some [5]) = .error (.badParameter 3)) :=
  ⟨⟨by decide, (c6_parameter_lookup ratOps).1 0 [5] (by decide)⟩,
   ⟨by decide, (c6_parameter_lookup ratOps).2.1 3 [5] (by decide)⟩⟩

/-- C7: Calculator.evaluate on Literal(v) succeeds with a value
capability storing exactly v, reading it yields v, and read on any value
capability is the pure projection of its stored value — so repeated reads
always return the same value. -/
theorem c7_literal_roundtrip_read_idempotent {α : Type} (ops : F64Ops α) (v : α) :
    CalculatorImpl.evaluate ops (.literal v) = .ok (ValueImpl.mk v) ∧
    (ValueImpl.mk v).read = v ∧
    ∀ cap : ValueImpl α, cap.read = cap.value :=
  ⟨rfl, rfl, fun _ => rfl⟩

/-- C8: defFunction(n, body) always succeeds, returning the UserDefined
capability capturing n and body with no validation; a call with the right
arity just evaluates the captured body, so a broken body (here an
out-of-range Parameter) surfaces its error only at call time. -/
theorem c8_def_function_validates_nothing :
    (∀ {α : Type} (ops : F64Ops α) (n : Nat) (body : Expr α),
        CalculatorImpl.defFunction n body = Func.userDefined n body ∧
        ∀ ps : List α, ps.length = n →
          Func.call ops (CalculatorImpl.defFunction n body) ps =
            evaluate ops body (some ps)) ∧
    Func.call ratOps (CalculatorImpl.defFunction 1 (.parameter 9)) [0] =
      .error (.badParameter 9) := by
  constructor
  · intro α ops n body
    refine ⟨rfl, fun ps h => ?_⟩
    simp [CalculatorImpl.defFunction, Func.call, h]
  · simp [CalculatorImpl.defFunction, Func.call, evaluate]

/-- Witness for C8 at n = 1, body = Parameter(0), parameter list [5]. -/
theorem c8_witness :
    ([5] : List Rat).length = 1 ∧
    Func.call ratOps (CalculatorImpl.defFunction 1 (.parameter 0)) [5] =
      evaluate ratOps (.parameter 0) (some [5]) :=
  ⟨rfl, (c8_def_function_validates_nothing.1 ratOps 1 (.parameter 0)).2 [5] rfl⟩

/-- C9: the evaluator hands its own parameter context, unchanged, to all
argument sub-evaluations of a Call node (the argument join is a monadic
map under the fixed context), and a fresh context is bound only by
invoking a UserDefined function, for its body. -/
theorem c9_context_passed_unchanged {α : Type} (ops : F64Ops α) :
    (∀ (f : Func α) (args : List (Expr α)) (params : Option (List α)),
        evaluate ops (.call f args) params =
          (args.mapM fun a => evaluate ops a params) >>= Func.call ops f) ∧
    (∀ (n : Nat) (body : Expr α) (ps : List α), ps.length = n →
        Func.call ops (.userDefined n body) ps = evaluate ops body (some ps)) := by
  constructor
  · intro f args params
    rw [← evalArgs_eq_mapM]
    rfl
  · intro n body ps h
    simp [Func.call, h]

/-- Witness for C9 at a unary identity function. -/
theorem c9_witness :
    ([7] : List Rat).length = 1 ∧
    Func.call ratOps (.userDefined 1 (.parameter 0)) [7] =
      evaluate ratOps (.parameter 0) (some [7]) :=
  ⟨rfl, (c9_context_passed_unchanged ratOps).2 1 (.parameter 0) [7] rfl⟩

/-- C10: in a UserDefined call the arity check comes first: with a wrong
parameter count the result is the arity error and is independent of the
body, so the body is never evaluated and none of its own errors can be
reported. -/
theorem c10_arity_check_precedes_body {α : Type} (ops : F64Ops α)
    (n : Nat) (body : Expr α) (ps : List α) (h : ps.length ≠ n) :
    Func.call ops (.userDefined n body) ps =
      .error (.expectedParameters n ps.length) ∧
    ∀ body2 : Expr α,
      Func.call ops (.userDefined n body) ps =
        Func.call ops (.userDefined n body2) ps := by
  constructor
  · simp [Func.call, h]
  · intro body2
    simp [Func.call, h]

/-- Witness for C10: a body that would fail with a bad parameter index is
never consulted when the arity is wrong. -/
theorem c10_witness :
    ([5] : List Rat).length ≠ 2 ∧
    Func.call ratOps (.userDefined 2 (.parameter 99)) [5] =
      .error (.expectedParameters 2 ([5] : List Rat).length) :=
  ⟨by decide, (c10_arity_check_precedes_body ratOps 2 (.parameter 99) [5] (by decide)).1⟩

end CapnpCalc
